import Mathlib

/-!
Verification development for the MrBeamPlugin migration and software-update
subsystem (`octoprint_mrbeam/migrate.py` and
`octoprint_mrbeam/software_update_information.py`).

The Python code is shallowly embedded: pure helpers become Lean functions,
stateful operations become explicit state passing over record types, and
fallible operations return `Option` / `Except`.
-/

namespace MrBeam

/-! ## StrictVersion (distutils.version.StrictVersion)

A strict version is `major.minor[.patch]` optionally followed by a
prerelease marker `a<n>` or `b<n>`.  The prerelease letter is encoded as a
number (`'a' ↦ 0`, `'b' ↦ 1`) so that the tuple comparison used by
`distutils` becomes numeric lexicographic comparison. -/

structure StrictVersion where
  major : Nat
  minor : Nat
  patch : Nat
  pre : Option (Nat × Nat)
  deriving DecidableEq, Repr

/-- Comparison of the prerelease components, mirroring `StrictVersion.__cmp__`:
a version without a prerelease marker is greater than the same version with
one, and two prerelease markers compare lexicographically. -/
def preLt : Option (Nat × Nat) → Option (Nat × Nat) → Bool
  | some _, none => true
  | some (c1, n1), some (c2, n2) =>
      decide (c1 < c2) || (decide (c1 = c2) && decide (n1 < n2))
  | _, _ => false

/-- Strict-version ordering: lexicographic on `(major, minor, patch)`, then on
the prerelease marker via `preLt`.  Models `cmp(self, other) < 0` in
`distutils.version.StrictVersion`. -/
def svLt (v w : StrictVersion) : Bool :=
  decide (v.major < w.major) ||
    (decide (v.major = w.major) &&
      (decide (v.minor < w.minor) ||
        (decide (v.minor = w.minor) &&
          (decide (v.patch < w.patch) ||
            (decide (v.patch = w.patch) && preLt v.pre w.pre)))))

/-- Splits off the longest leading run of decimal digits. -/
def takeDigits : List Char → List Char × List Char
  | [] => ([], [])
  | c :: cs =>
      if c.isDigit then
        let r := takeDigits cs
        (c :: r.1, r.2)
      else ([], c :: cs)

/-- Numeric value of a digit string. -/
def digitsVal (ds : List Char) : Nat :=
  ds.foldl (fun a c => a * 10 + (c.toNat - 48)) 0

/-- `str.split(sep)` on a single separator character. -/
def splitOnChar (sep : Char) : List Char → List (List Char)
  | [] => [[]]
  | x :: xs =>
      let r := splitOnChar sep xs
      if x = sep then [] :: r
      else
        match r with
        | h :: t => (x :: h) :: t
        | [] => [[x]]

/-- Substring membership `pat in s` on character lists. -/
def containsSub (pat : List Char) : List Char → Bool
  | [] => pat.isEmpty
  | x :: xs => pat.isPrefixOf (x :: xs) || containsSub pat xs

/-- One left-to-right pass replacing each non-overlapping occurrence of
`pat` (nonempty) by `rep`, as `str.format` substitution does; the fuel is
the scanned list's length. -/
def replaceAux (pat rep : List Char) : Nat → List Char → List Char
  | 0, l => l
  | _ + 1, [] => []
  | fuel + 1, x :: xs =>
      if pat.isPrefixOf (x :: xs) then
        rep ++ replaceAux pat rep fuel ((x :: xs).drop pat.length)
      else x :: replaceAux pat rep fuel xs

/-- String replacement built on `replaceAux`. -/
def replaceStr (s pat rep : String) : String :=
  String.mk (replaceAux pat.toList rep.toList s.toList.length s.toList)

/-- Parses the optional prerelease suffix `([ab](\d+))?$` of the
`StrictVersion` regular expression: either the input is empty (no marker) or
it is exactly `a<digits>` / `b<digits>`. -/
def parsePre : List Char → Option (Option (Nat × Nat))
  | [] => some none
  | c :: cs =>
      if c = 'a' ∨ c = 'b' then
        let (ds, rest) := takeDigits cs
        if ds ≠ [] ∧ rest = [] then
          some (some (if c = 'a' then 0 else 1, digitsVal ds))
        else none
      else none

/-- Parser for `StrictVersion`'s anchored regular expression
`^(\d+)\.(\d+)(\.(\d+))?([ab](\d+))?$`; a missing patch component defaults
to `0`, exactly as `distutils` does.  `none` models the `ValueError` raised
on a string that does not match. -/
def parseStrictVersion (s : String) : Option StrictVersion :=
  let (d1, r1) := takeDigits s.toList
  if d1 = [] then none else
  match r1 with
  | '.' :: r2 =>
      let (d2, r3) := takeDigits r2
      if d2 = [] then none else
      match r3 with
      | '.' :: r4 =>
          let (d3, r5) := takeDigits r4
          if d3 = [] then none else
          match parsePre r5 with
          | some pre => some ⟨digitsVal d1, digitsVal d2, digitsVal d3, pre⟩
          | none => none
      | _ =>
          match parsePre r3 with
          | some pre => some ⟨digitsVal d1, digitsVal d2, 0, pre⟩
          | none => none
  | _ => none

/-! ## migrate.py: version comparison and migration gating -/

/-- `Migration.VERSION_DELETE_EGG_DIR_LEFTOVERS` -/
def VERSION_DELETE_EGG_DIR_LEFTOVERS : String := "0.1.17"

/-- `Migration.VERSION_SETUP_IPTABLES` -/
def VERSION_SETUP_IPTABLES : String := "0.1.19"

/-- `Migration._compare_versions(lower_vers, higher_vers, equal_ok)`:
`none` models Python returning `None` (either argument `None`, or a
`ValueError` from `StrictVersion` caught and logged); otherwise returns
`equal_ok` on equal versions and `lower < higher` otherwise. -/
def compareVersions (lower_vers higher_vers : Option String) (equal_ok : Bool) :
    Option Bool :=
  match lower_vers, higher_vers with
  | none, _ => none
  | _, none => none
  | some l, some h =>
      match parseStrictVersion l, parseStrictVersion h with
      | some lv, some hv =>
          if lv = hv then some equal_ok else some (svLt lv hv)
      | _, _ => none

/-- `Migration.is_migration_required`: `.ok (some true)` when the previous
version is absent, `.ok none` (Python `None`) when the previous version does
not parse, `.ok (some (prev < curr))` when both parse, and `.error ()` models
the uncaught `ValueError` raised when the previous version parses but the
current plugin version does not. -/
def isMigrationRequired (version_previous : Option String)
    (version_current : String) : Except Unit (Option Bool) :=
  match version_previous with
  | none => .ok (some true)
  | some p =>
      match parseStrictVersion p with
      | none => .ok none
      | some pv =>
          match parseStrictVersion version_current with
          | none => .error ()
          | some cv => .ok (some (svLt pv cv))

/-! ## migrate.py: delete_egg_dir_leftovers

The directory-entry match `re.match(r'Mr_Beam-(?P<version>[0-9.]+)[.-].+', f)`
is embedded with its greedy backtracking semantics: the version group takes
the longest prefix of the `[0-9.]` run after `Mr_Beam-` such that the next
character is `.` or `-` and at least one character follows it. -/

/-- Tries candidate lengths for the greedy `[0-9.]+` version group, longest
first; `run` is the maximal `[0-9.]` run after the `Mr_Beam-` literal and
`tail` the remaining characters. -/
def eggTry (run tail : List Char) : Nat → Option (List Char)
  | 0 => none
  | k + 1 =>
      match run.drop (k + 1) ++ tail with
      | c :: more =>
          if (c = '.' ∨ c = '-') ∧ more ≠ [] then some (run.take (k + 1))
          else eggTry run tail k
      | [] => eggTry run tail k

/-- The `version` group captured by
`re.match(r'Mr_Beam-(?P<version>[0-9.]+)[.-].+', f)`, or `none` when the
pattern does not match. -/
def eggMatch (f : String) : Option String :=
  let cs := f.toList
  if cs.take 8 = "Mr_Beam-".toList then
    let rest := cs.drop 8
    let run := rest.takeWhile fun c => c.isDigit || c == '.'
    let tail := rest.dropWhile fun c => c.isDigit || c == '.'
    match eggTry run tail run.length with
    | some v => some (String.mk v)
    | none => none
  else none

/-- The deletion test applied to each directory entry in
`delete_egg_dir_leftovers`: the entry matches the egg pattern and its
captured version is strictly below `VERSION_DELETE_EGG_DIR_LEFTOVERS`
(`equal_ok=False`; a `None` comparison result is falsy in Python). -/
def eggShouldDelete (f : String) : Bool :=
  match eggMatch f with
  | some v =>
      compareVersions (some v) (some VERSION_DELETE_EGG_DIR_LEFTOVERS) false
        == some true
  | none => false

/-- `Migration.delete_egg_dir_leftovers`, abstracted over the filesystem: the
base directory's existence and its entry list are inputs, and the returned
list is the set of entries removed by `shutil.rmtree`, in listing order.
When the base directory does not exist nothing is deleted (the code only
logs an error). -/
def deleteEggDirLeftovers (dirExists : Bool) (entries : List String) :
    List String :=
  if dirExists then entries.filter eggShouldDelete else []

/-! ## Laser-cutter profiles and the profile manager

`migrate.py` imports `laserCutterProfileManager` from `octoprint_mrbeam.profile`,
which is not part of the excerpt; the store below is modelled from the spec. -/

/-- A hardware profile record; only the fields this subsystem reads or
writes are carried (`laser.intensity_factor`, `dust.auto_mode_time`, and
`legacy.job_done_home_position_x` are flattened). -/
structure Profile where
  id : String
  name : String
  model : String
  laser_intensity_factor : Option Nat
  dust_auto_mode_time : Option Nat
  legacy_job_done_home_position_x : Option Nat
  deriving DecidableEq, Repr

/-- Modelled from the spec: the external laser-cutter profile-manager
component (`octoprint_mrbeam.profile.laserCutterProfileManager`, not included
under `src/`).  It owns a list of saved profiles and marks exactly one
profile as default; this subsystem only reads, creates, overwrites and
sets-default. -/
structure LCPStore where
  profiles : List Profile
  default : Profile
  deriving DecidableEq, Repr

/-- Modelled from the spec: `laserCutterProfileManager().exists(profile_id)`. -/
def LCPStore.existsId (s : LCPStore) (pid : String) : Bool :=
  s.profiles.any fun p => p.id == pid

/-- Modelled from the spec: lookup of a saved profile by identifier. -/
def LCPStore.get? (s : LCPStore) (pid : String) : Option Profile :=
  s.profiles.find? fun p => p.id == pid

/-- Modelled from the spec: `laserCutterProfileManager().set_default(profile_id)`
marks the stored profile with the given identifier as default and mutates
nothing else. -/
def LCPStore.setDefault (s : LCPStore) (pid : String) : LCPStore :=
  match s.get? pid with
  | some p => { s with default := p }
  | none => s

/-- Modelled from the spec:
`laserCutterProfileManager().save(profile, allow_overwrite, make_default)`
stores the profile (replacing a same-id profile only when overwrite is
allowed, appending it when no profile has that id) and marks it default when
requested. -/
def LCPStore.save (s : LCPStore) (p : Profile) (allow_overwrite make_default : Bool) :
    LCPStore :=
  if s.existsId p.id then
    if allow_overwrite then
      { profiles := s.profiles.map fun q => if q.id == p.id then p else q,
        default := if make_default then p else s.default }
    else s
  else
    { profiles := s.profiles ++ [p],
      default := if make_default then p else s.default }

/-- `Migration.is_lasercutterProfile_set`: a non-generic profile is default. -/
def is_lasercutterProfile_set (s : LCPStore) : Bool :=
  s.default.id != "my_default"

/-- `Migration.set_lasercutterPorfile_2C`: if a `MrBeam2C` profile exists it
is merely set default; otherwise the current default profile is cloned,
its `id`/`name`/`model` overridden and `legacy.job_done_home_position_x`
set to 250, and the clone is saved with overwrite as the new default. -/
def set_lasercutterPorfile_2C (s : LCPStore) : LCPStore :=
  if s.existsId "MrBeam2C" then s.setDefault "MrBeam2C"
  else
    let p :=
      { s.default with
        id := "MrBeam2C"
        name := "MrBeam2"
        model := "C"
        legacy_job_done_home_position_x := some 250 }
    s.save p true true

/-- `Migration.set_lasercutterPorfile_2D`: same pattern with `model = "D"`
and no legacy override. -/
def set_lasercutterPorfile_2D (s : LCPStore) : LCPStore :=
  if s.existsId "MrBeam2D" then s.setDefault "MrBeam2D"
  else
    let p := { s.default with id := "MrBeam2D", name := "MrBeam2", model := "D" }
    s.save p true true

/-- `Migration.set_lasercutterPorfile_2all`: set `MrBeam<series>` default when
it exists, otherwise keep the generic profile (only a warning is logged). -/
def set_lasercutterPorfile_2all (device_series : String) (s : LCPStore) :
    LCPStore :=
  let pid := "MrBeam" ++ device_series
  if s.existsId pid then s.setDefault pid else s

/-! ## migrate.py: the migration runner -/

/-- Events recorded while `Migration.run` executes, at the granularity the
run sequence is specified: the three version-gated steps and each persist of
the current version into settings. -/
inductive MigEvent where
  | migrate_from_0_0_0
  | delete_egg_dir_leftovers
  | setup_iptables
  | saved_version (v : String)
  deriving DecidableEq, Repr

/-- Outcome of one command handed to `subprocess.check_output`: either the
process was spawned, ran, and exited (with its combined stdout/stderr text
and exit code — `stderr=STDOUT` merges the streams), or the command could
not be spawned at all and `check_output` raised `OSError` (for example when
the executable does not exist). -/
inductive ProcOutcome where
  | exited (output : String) (code : Int)
  | osError
  deriving DecidableEq, Repr

/-- The exceptions `subprocess.check_output` raises: `CalledProcessError`
carrying the return code and combined output of a non-zero exit, or the
`OSError` of a failed spawn. -/
inductive SubprocessError where
  | calledProcessError (returncode : Int) (output : String)
  | osError
  deriving DecidableEq, Repr

/-- `subprocess.check_output(cmd, stderr=subprocess.STDOUT)`: returns the
combined output on exit code zero, raises `CalledProcessError` on a
non-zero exit, and raises `OSError` when the command cannot be spawned. -/
def check_output : ProcOutcome → Except SubprocessError String
  | .exited output code =>
      if code = 0 then .ok output
      else .error (.calledProcessError code output)
  | .osError => .error .osError

/-- `Migration._exec_cmd_output(cmd)`: runs the command, returning
`(output, 0)` on success; the `except` clause catches only
`CalledProcessError`, representing it as `(e.output, e.returncode)` — any
other exception, in particular the `OSError` of an unspawnable command,
propagates to the caller (the `.error` result). -/
def _exec_cmd_output (o : ProcOutcome) : Except SubprocessError (String × Int) :=
  match check_output o with
  | .ok out => .ok (out, 0)
  | .error (.calledProcessError code out) => .ok (out, code)
  | .error .osError => .error .osError

/-- `Migration.setup_iptables`: three sequential privileged shell-outs
(write the iptables script, `chmod +x` it, execute it); a non-zero exit from
any step logs the captured output and aborts the remaining sub-steps, while
an uncaught exception from `_exec_cmd_output` propagates.  Returns how many
of the three commands were executed. -/
def setup_iptables (writeProc chmodProc execProc : ProcOutcome) :
    Except SubprocessError Nat := do
  let r1 ← _exec_cmd_output writeProc
  if r1.2 ≠ 0 then pure 1
  else
    let r2 ← _exec_cmd_output chmodProc
    if r2.2 ≠ 0 then pure 2
    else
      let _ ← _exec_cmd_output execProc
      pure 3

/-- `Migration.migrate_from_0_0_0`: set the default profile's
`laser.intensity_factor` to 13 and `dust.auto_mode_time` to 60, then save it
with overwrite as default. -/
def migrate_from_0_0_0 (s : LCPStore) : LCPStore :=
  let p :=
    { s.default with
      laser_intensity_factor := some 13
      dust_auto_mode_time := some 60 }
  s.save p true true

/-- The plugin context and environment `Migration.__init__` captures: the
persisted previous version, the running plugin version, the configured
device series, the profile store, the egg-leftover directory state, and the
results of the three iptables shell-outs. -/
structure MigEnv where
  version_previous : Option String
  version_current : String
  device_series : String
  store : LCPStore
  eggDirExists : Bool
  eggEntries : List String
  iptablesProcs : ProcOutcome × ProcOutcome × ProcOutcome

/-- The observable state `Migration.run` threads: the profile store, the
persisted `version` settings key, the event trace, the deleted egg
directories and the number of iptables commands run. -/
structure MigState where
  store : LCPStore
  settingsVersion : Option String
  events : List MigEvent
  deletedDirs : List String
  iptablesCmdsRun : Nat
  deriving Repr

/-- `Migration.save_current_version`: persist the current plugin version
under the `version` settings key (forced). -/
def save_current_version (env : MigEnv) (st : MigState) : MigState :=
  { st with settingsVersion := some env.version_current,
            events := st.events ++ [.saved_version env.version_current] }

/-- `Migration.set_lasercutterProfile`: dispatch on the configured device
series when the generic profile is default; series `2X` only logs an error
and returns early, every other branch persists the current version after
the profile assignment. -/
def set_lasercutterProfile (env : MigEnv) (st : MigState) : MigState :=
  if st.store.default.id = "my_default" then
    if env.device_series = "2X" then st
    else
      let st :=
        if env.device_series = "2C" then
          { st with store := set_lasercutterPorfile_2C st.store }
        else if env.device_series = "2D" then
          { st with store := set_lasercutterPorfile_2D st.store }
        else
          { st with store := set_lasercutterPorfile_2all env.device_series st.store }
      save_current_version env st
  else st

/-- `Migration.delete_egg_dir_leftovers` acting on the run state: records
the directories removed by `shutil.rmtree`. -/
def delete_egg_dir_leftovers (env : MigEnv) (st : MigState) : MigState :=
  { st with deletedDirs :=
      st.deletedDirs ++ deleteEggDirLeftovers env.eggDirExists env.eggEntries }

/-- `Migration.run`: assign a default profile when the generic one is
active, then — when migration is required — execute each version-gated step
whose threshold is newer than the previous version (or the previous version
is absent) and persist the current version.  The catch-all `except` of the
Python code corresponds to the `.error` branches: an unparseable current
version in `is_migration_required`, or an uncaught exception escaping
`setup_iptables` — in both cases the state so far is kept and nothing more
runs, so the current version is not persisted. -/
def Migration_run (env : MigEnv) : MigState :=
  let st0 : MigState := ⟨env.store, env.version_previous, [], [], 0⟩
  let st1 := if is_lasercutterProfile_set st0.store then st0
             else set_lasercutterProfile env st0
  match isMigrationRequired env.version_previous env.version_current with
  | .error _ => st1
  | .ok required =>
    if required = some true then
      let st2 :=
        if env.version_previous = none ∨
            compareVersions env.version_previous (some "0.1.13") false
              = some true then
          { st1 with store := migrate_from_0_0_0 st1.store,
                     events := st1.events ++ [.migrate_from_0_0_0] }
        else st1
      let st3 :=
        if env.version_previous = none ∨
            compareVersions env.version_previous
              (some VERSION_DELETE_EGG_DIR_LEFTOVERS) false = some true then
          let st := delete_egg_dir_leftovers env st2
          { st with events := st.events ++ [.delete_egg_dir_leftovers] }
        else st2
      let step4 : Except SubprocessError MigState :=
        if env.version_previous = none ∨
            compareVersions env.version_previous
              (some VERSION_SETUP_IPTABLES) false = some true then
          match setup_iptables env.iptablesProcs.1 env.iptablesProcs.2.1
              env.iptablesProcs.2.2 with
          | .ok n =>
              .ok { st3 with
                      iptablesCmdsRun := n,
                      events := st3.events ++ [.setup_iptables] }
          | .error e => .error e
        else .ok st3
      match step4 with
      | .ok st4 => save_current_version env st4
      | .error _ => st3
    else st1

/-! ## software_update_information.py: tiers and remote tag lookup -/

/-- `SW_UPDATE_TIERS_DEV = [ALPHA, DEV]` (tier codes). -/
def SW_UPDATE_TIERS_DEV : List String := ["ALPHA", "DEV"]

/-- `SW_UPDATE_TIERS_PROD = [STABLE, BETA]` (tier codes). -/
def SW_UPDATE_TIERS_PROD : List String := ["PROD", "BETA"]

/-- `SW_UPDATE_TIERS = SW_UPDATE_TIERS_DEV + SW_UPDATE_TIERS_PROD`. -/
def SW_UPDATE_TIERS : List String := SW_UPDATE_TIERS_DEV ++ SW_UPDATE_TIERS_PROD

/-- `DEFAULT_REPO_BRANCH_ID` as an association list. -/
def DEFAULT_REPO_BRANCH_ID : List (String × String) :=
  [("PROD", "stable"), ("BETA", "beta"), ("ALPHA", "alpha"), ("DEV", "develop")]

/-- `_get_tier_by_id(tier)`: branch keyword of a tier id, defaulting to the
id itself (`dict.get(tier, tier)`). -/
def _get_tier_by_id (tier : String) : String :=
  match DEFAULT_REPO_BRANCH_ID.find? (fun p => p.1 == tier) with
  | some p => p.2
  | none => tier

/-- `MAJOR_VERSION_CLOUD_CONFIG = 0`. -/
def MAJOR_VERSION_CLOUD_CONFIG : Nat := 0

/-- Ordering of plain (three-component, no prerelease) semantic versions;
the tag lists this subsystem consumes carry only such versions. -/
def semverLt (a b : Nat × Nat × Nat) : Bool :=
  decide (a.1 < b.1) ||
    (decide (a.1 = b.1) &&
      (decide (a.2.1 < b.2.1) ||
        (decide (a.2.1 = b.2.1) && decide (a.2.2 < b.2.2))))

/-- A numeric identifier of strict semantic versioning: nonempty, digits
only, no leading zero. -/
def isNumPart (l : List Char) : Bool :=
  !l.isEmpty && l.all Char.isDigit && (l == ['0'] || l.head? != some '0')

/-- `semantic_version.Version`, restricted to the plain `X.Y.Z` shape of the
repository tags; `none` models the `ValueError` raised on anything else. -/
def parseSemVer3 (cs : List Char) : Option (Nat × Nat × Nat) :=
  match splitOnChar '.' cs with
  | [a, b, c] =>
      if isNumPart a && isNumPart b && isNumPart c then
        some (digitsVal a, digitsVal b, digitsVal c)
      else none
  | _ => none

/-- Parses the whole tag list, each tag name stripped of its first character
(`version.get("name")[1:]`); `none` models the uncaught `ValueError` on an
unparseable name. -/
def parseTags : List String → Option (List (Nat × Nat × Nat))
  | [] => some []
  | t :: ts =>
      match parseSemVer3 (t.toList.drop 1) with
      | some v =>
          match parseTags ts with
          | some vs => some (v :: vs)
          | none => none
      | none => none

/-- `Spec("<{MAJOR_VERSION_CLOUD_CONFIG+1}.0.0").select(versionlist)`: the
maximum version below the bound, or `none` when no version qualifies. -/
def specSelect (versions : List (Nat × Nat × Nat)) : Option (Nat × Nat × Nat) :=
  versions.foldl
    (fun acc v =>
      if semverLt v (MAJOR_VERSION_CLOUD_CONFIG + 1, 0, 0) then
        match acc with
        | none => some v
        | some m => some (if semverLt m v then v else m)
      else acc)
    none

/-- Outcome of the tag-list HTTP request in `get_tag_of_github_repo`:
retry exhaustion (`MaxRetryError`), a connection failure
(`requests.ConnectionError`), or a response with a status code and the tag
names from its JSON body. -/
inductive NetOutcome where
  | maxRetryError
  | connectionError
  | response (status : Nat) (tags : List String)

/-- `get_tag_of_github_repo(repo)`: the three network failure modes are
caught and logged as warnings, yielding no value; an HTTP error status makes
`raise_for_status` throw the `HTTPError` that the code catches (again no
value); otherwise each tag name is stripped of its first character, parsed
as a semantic version, and the maximum version below major
`MAJOR_VERSION_CLOUD_CONFIG + 1` is selected.  `.error` models the uncaught
`ValueError` on an unparseable tag name. -/
def get_tag_of_github_repo (o : NetOutcome) :
    Except Unit (Option (Nat × Nat × Nat)) :=
  match o with
  | .maxRetryError => .ok none
  | .connectionError => .ok none
  | .response status tags =>
      if 400 ≤ status then .ok none
      else
        match parseTags tags with
        | some versions => .ok (specSelect versions)
        | none => .error ()

/-! ## software_update_information.py: JSON trees and deep merge -/

mutual

/-- A JSON/YAML value as the update-config pipeline manipulates it: scalars
(string, integer, boolean, null) and string-keyed mappings whose entries are
kept in insertion order, as Python dicts do. -/
inductive JVal where
  | s (v : String)
  | n (v : Int)
  | b (v : Bool)
  | null
  | obj (fields : JFields)

/-- The entry list of a mapping value, in insertion order. -/
inductive JFields where
  | nil
  | cons (k : String) (v : JVal) (tl : JFields)

end

/-- Builds a mapping's entry list from a Lean list literal. -/
def jfields : List (String × JVal) → JFields
  | [] => .nil
  | (k, v) :: tl => .cons k v (jfields tl)

/-- Builds a mapping value from a Lean list literal. -/
def jobj (l : List (String × JVal)) : JVal :=
  .obj (jfields l)

/-- Key lookup in an entry list. -/
def JFields.find? : JFields → String → Option JVal
  | .nil, _ => none
  | .cons k v tl, key => if k == key then some v else tl.find? key

/-- Key membership in an entry list (`k in d`). -/
def JFields.hasKey : JFields → String → Bool
  | .nil, _ => false
  | .cons k _ tl, key => k == key || tl.hasKey key

/-- Whether an entry list is empty. -/
def JFields.isEmpty : JFields → Bool
  | .nil => true
  | .cons _ _ _ => false

/-- Concatenation of entry lists. -/
def JFields.append : JFields → JFields → JFields
  | .nil, b => b
  | .cons k v tl, b => .cons k v (tl.append b)

/-- Key assignment `d[k] = v`: an existing key keeps its position, a new key
is appended. -/
def JFields.set : JFields → String → JVal → JFields
  | .nil, k, v => .cons k v .nil
  | .cons k0 v0 tl, k, v =>
      if k0 == k then .cons k0 v tl else .cons k0 v0 (tl.set k v)

/-- Key lookup in a mapping value (`k in d` / `d[k]` on dicts). -/
def getKey (j : JVal) (k : String) : Option JVal :=
  match j with
  | .obj fields => fields.find? k
  | _ => none

/-- `JFields.set` lifted to a mapping value. -/
def setKey (j : JVal) (k : String) (v : JVal) : JVal :=
  match j with
  | .obj fields => .obj (fields.set k v)
  | _ => j

/-- Python truthiness of the values that reach `if cloud_config:` — an empty
mapping, `None`, `False`, `0` and `""` are falsy. -/
def jTruthy : JVal → Bool
  | .s v => !v.isEmpty
  | .n v => v != 0
  | .b v => v
  | .null => false
  | .obj fields => !fields.isEmpty

/-- Entries of the second mapping whose key does not occur in the first;
these are appended, in iteration order, by the dict update. -/
def dmNew (a : JFields) : JFields → JFields
  | .nil => .nil
  | .cons k v tl => if a.hasKey k then dmNew a tl else .cons k v (dmNew a tl)

mutual

/-- Modelled from the spec: the shared deep-merge utility `dict_merge` of
`octoprint_mrbeam.util` (not included under src/): mapping/mapping
collisions merge recursively, every other collision lets the second
argument win, at every nesting depth.  On mappings, keys of the first
argument keep their order and new keys of the second are appended, as the
iterative dict update does. -/
def dict_merge : JVal → JVal → JVal
  | JVal.obj a, JVal.obj b => JVal.obj ((dmKeep a b).append (dmNew a b))
  | _, b => b

/-- Merge pass over the first argument's entries: an entry whose key also
appears in the second mapping is merged with (or overwritten by) the second
mapping's value. -/
def dmKeep : JFields → JFields → JFields
  | JFields.nil, _ => JFields.nil
  | JFields.cons k va tl, b =>
      JFields.cons k
        (match b.find? k with
         | some vb => dict_merge va vb
         | none => va)
        (dmKeep tl b)

end

/-- `dict_merge(defaultsettings, module)` where `defaultsettings` may be
Python `None` (the second argument then wins under the any-other-type rule). -/
def dmDefaults : Option JVal → JVal → JVal
  | none, m => m
  | some d, m => dict_merge d m

/-- The working keys stripped by `_clean_update_config`. -/
def popList : List String :=
  ["alpha", "beta", "stable", "develop", "beamos_date", "name"]

/-- Entry-list filter deleting the working keys. -/
def cleanFields : JFields → JFields
  | .nil => .nil
  | .cons k v tl =>
      if popList.contains k then cleanFields tl
      else .cons k v (cleanFields tl)

/-- `_clean_update_config(update_config)`: strips the working keys
`alpha`, `beta`, `stable`, `develop`, `beamos_date`, `name`. -/
def _clean_update_config (j : JVal) : JVal :=
  match j with
  | .obj fields => .obj (cleanFields fields)
  | _ => j

/-! ## software_update_information.py: beamos-date scoped overrides -/

/-- A calendar date `(year, month, day)`. -/
abbrev BDate := Nat × Nat × Nat

/-- Date comparison (`datetime.date` ordering). -/
def dateLt (a b : BDate) : Bool :=
  decide (a.1 < b.1) ||
    (decide (a.1 = b.1) &&
      (decide (a.2.1 < b.2.1) ||
        (decide (a.2.1 = b.2.1) && decide (a.2.2 < b.2.2))))

/-- `datetime.strptime(s, "%Y-%m-%d").date()`: `none` models the raised
`ValueError` on a malformed date string. -/
def strptimeDate (s : String) : Option BDate :=
  match splitOnChar '-' s.toList with
  | [y, m, d] =>
      if (!y.isEmpty && y.all Char.isDigit) &&
         (!m.isEmpty && m.all Char.isDigit) &&
         (!d.isEmpty && d.all Char.isDigit) then
        let mv := digitsVal m
        let dv := digitsVal d
        if 1 ≤ mv && mv ≤ 12 && 1 ≤ dv && dv ≤ 31 then
          some (digitsVal y, mv, dv)
        else none
      else none
  | _ => none

/-- The loop body of `_generate_config_of_beamos`: scans the dated entries
in mapping-iteration order, keeping the running `prev_beamos_date_entry`,
and merges every entry whose date is not after the device's image date while
the running entry is still before the device date (an entry with a
tier-keyed sub-object first merges that over itself).  `.error` models a
`ValueError` from `strptime` on a malformed entry date. -/
def beamosFold (beamos_date : BDate) (tierversion : String) :
    JFields → BDate → JVal → Except Unit JVal
  | .nil, _, acc => .ok acc
  | .cons ds beamos_config rest, prev, acc =>
      match strptimeDate ds with
      | none => .error ()
      | some d =>
          if !(dateLt beamos_date d) && dateLt prev beamos_date then
            let cfg :=
              match getKey beamos_config tierversion with
              | some t => dict_merge beamos_config t
              | none => beamos_config
            beamosFold beamos_date tierversion rest d (dict_merge acc cfg)
          else beamosFold beamos_date tierversion rest prev acc

/-- `_generate_config_of_beamos(moduleconfig, beamos_date, tierversion)`:
empty result when the module has no `beamos_date` map, otherwise the
accumulated merge of the qualifying dated entries, seeded with the sentinel
date 2000-01-01. -/
def _generate_config_of_beamos (moduleconfig : JVal) (beamos_date : BDate)
    (tierversion : String) : Except Unit JVal :=
  match getKey moduleconfig "beamos_date" with
  | none => .ok (jobj [])
  | some (JVal.obj entries) =>
      beamosFold beamos_date tierversion entries (2000, 1, 1) (jobj [])
  | some _ => .error ()

/-! ## software_update_information.py: module-record generation -/

/-- The external collaborators `_generate_config_of_module` consults: the
host's plugin registry (`plugin._plugin_manager.get_plugin_info(id).version`),
the pip version lookup (`util.pip_util.get_version_of_pip_module`), the
computed `GLOBAL_PIP_COMMAND` constant (present only when
`/usr/local/bin/pip` exists on disk) and the plugin's base folder. -/
structure PluginEnv where
  registryVersion : String → Option String
  pipVersion : JVal → JVal → Option String
  globalPipCommand : Option String
  basefolder : String

/-- `_get_curent_version(input_moduleconfig, module_id, plugin)`: defaults
`pip_command` from the global pip command when only `global_pip_command` is
set (mutating the module config, which the caller keeps using), then looks
up the version via pip when a `pip_command` is present and via the host's
plugin registry otherwise.  Returns the (possibly mutated) config and the
version found. -/
def _get_curent_version (env : PluginEnv) (input_moduleconfig : JVal)
    (module_id : String) : JVal × Option String :=
  let cfg :=
    if (getKey input_moduleconfig "global_pip_command").isSome &&
        !(getKey input_moduleconfig "pip_command").isSome then
      setKey input_moduleconfig "pip_command"
        (match env.globalPipCommand with
         | some s => JVal.s s
         | none => JVal.null)
    else input_moduleconfig
  match getKey cfg "pip_command" with
  | some pip_command =>
      let package_name :=
        match getKey cfg "package_name" with
        | some p => p
        | none => JVal.s module_id
      (cfg, env.pipVersion package_name pip_command)
  | none => (cfg, env.registryVersion module_id)

/-- Iterates a `dependencies` entry list, replacing each entry's value by
the generated record `g` produces for it (a Python `None` result is stored
as null). -/
def genDepsWith (g : String → JVal → Except Unit (Option JVal)) :
    JFields → Except Unit JFields
  | .nil => .ok .nil
  | .cons k v tl => do
      let r ← g k v
      let rest ← genDepsWith g tl
      pure (.cons k
        (match r with
         | some x => x
         | none => JVal.null) rest)

/-- `_generate_config_of_module(module_id, input_moduleconfig,
defaultsettings, tier, beamos_date, plugin)`: merge the defaults under the
module config, merge a tier-named sub-object over it, merge the
beamos-date-scoped overrides over it, substitute the branch and
update-script placeholders, set `displayVersion`/`displayName`, strip the
working keys, and recurse into `dependencies`.  Returns `none` (Python
`None`) when the tier is unknown.  The `fuel` argument bounds the recursion
depth over the (finite) dependency tree; `.error` also models the raised
`ValueError`/`AttributeError` on malformed dates or non-mapping working
fields. -/
def _generate_config_of_module (env : PluginEnv) :
    Nat → String → JVal → Option JVal → String → BDate →
      Except Unit (Option JVal)
  | 0, _, _, _, _, _ => .error ()
  | fuel + 1, module_id, input0, defaultsettings, tier, beamos_date =>
      if SW_UPDATE_TIERS.contains tier then do
        let mc := dmDefaults defaultsettings input0
        let tierversion := _get_tier_by_id tier
        let mc :=
          match getKey mc tierversion with
          | some t => dict_merge mc t
          | none => mc
        let bs ← _generate_config_of_beamos mc beamos_date tierversion
        let mc := dict_merge mc bs
        let mc :=
          match getKey mc "branch" with
          | some (JVal.s br) =>
              if containsSub "{tier}".toList br.toList then
                setKey mc "branch" (JVal.s (replaceStr br "{tier}" tierversion))
              else mc
          | _ => mc
        let mc :=
          if module_id == "mrbeam" then
            match getKey mc "update_script" with
            | some (JVal.s us) =>
                setKey mc "update_script"
                  (JVal.s (replaceStr us "{update_script}"
                    (env.basefolder ++ "/scripts/update_script.py")))
            | _ => mc
          else mc
        let r := _get_curent_version env mc module_id
        let mc := r.1
        let current_version := r.2
        let mc :=
          if module_id != "octoprint" then
            setKey mc "displayVersion"
              (JVal.s (match current_version with
                       | some v => if v.isEmpty then "-" else v
                       | none => "-"))
          else mc
        let mc :=
          match getKey mc "name" with
          | some nm => setKey mc "displayName" nm
          | none => mc
        let mc := _clean_update_config mc
        match getKey mc "dependencies" with
        | some (JVal.obj deps) => do
            let deps2 ← genDepsWith
              (fun dn dc => _generate_config_of_module env fuel dn dc
                defaultsettings tier beamos_date) deps
            pure (some (setKey mc "dependencies" (JVal.obj deps2)))
        | some _ => .error ()
        | none => pure (some mc)
      else pure none

/-- Key assignment on the collected `sw_update_config` association list. -/
def setEntry : List (String × JVal) → String → JVal → List (String × JVal)
  | [], k, v => [(k, v)]
  | (k0, v0) :: tl, k, v =>
      if k0 == k then (k0, v) :: tl else (k0, v0) :: setEntry tl k v

/-- The body of `_set_info_from_cloud_config`'s module loop, over the
remaining module entries. -/
def collectModules (env : PluginEnv) (fuel : Nat) (tier : String)
    (beamos_date : BDate) (defaultsettings : Option JVal) :
    JFields → List (String × JVal) → Except Unit (List (String × JVal))
  | .nil, acc => .ok acc
  | .cons module_id module tl, acc =>
      if SW_UPDATE_TIERS.contains tier then do
        let merged := dmDefaults defaultsettings module
        let r ← _generate_config_of_module env fuel module_id merged
          defaultsettings tier beamos_date
        collectModules env fuel tier beamos_date defaultsettings tl
          (setEntry acc module_id
            (match r with
             | some v => v
             | none => JVal.null))
      else collectModules env fuel tier beamos_date defaultsettings tl acc

/-- The per-module collection loop of `_set_info_from_cloud_config`: for
every module of `cloud_config["modules"]` whose tier is known, merge the
shared defaults under the module and resolve it via
`_generate_config_of_module`, collecting the results in iteration order.
This value is fully computed before the file write is attempted. -/
def computeSwUpdateConfig (env : PluginEnv) (fuel : Nat) (tier : String)
    (beamos_date : BDate) (cloud_config : JVal) :
    Except Unit (List (String × JVal)) :=
  let defaultsettings := getKey cloud_config "default"
  match getKey cloud_config "modules" with
  | some (JVal.obj modules) =>
      collectModules env fuel tier beamos_date defaultsettings modules []
  | _ => .error ()

/-- `_set_info_from_cloud_config(plugin, tier, beamos_date, cloud_config)`:
a falsy cloud config yields no value; otherwise the per-module records are
computed, serialized and written to `update_info.json` — abstracted by the
`writeOk` flag, `false` standing for the `IOError`/`TypeError` the code
catches.  The result pairs the returned value with the notification ids
shown: on a write failure the error notification is shown and no value is
returned (which `get_update_information` passes straight to its caller),
discarding the computed records. -/
def _set_info_from_cloud_config (env : PluginEnv) (fuel : Nat) (tier : String)
    (beamos_date : BDate) (cloud_config : JVal) (writeOk : Bool) :
    Except Unit (Option (List (String × JVal)) × List String) := do
  if jTruthy cloud_config then
    let sw_update_config ← computeSwUpdateConfig env fuel tier beamos_date
      cloud_config
    if writeOk then pure (some sw_update_config, [])
    else pure (none, ["write_error_update_info_file_err"])
  else pure (none, [])

/-! ## Concrete fixtures for the update-information scenarios -/

/-- A dated override entry (fields `x`, `a`). -/
def beamosEntryOld : JVal := jobj [("x", JVal.n 1), ("a", JVal.n 1)]

/-- A later dated override entry (fields `x`, `b`). -/
def beamosEntryNew : JVal := jobj [("x", JVal.n 2), ("b", JVal.n 2)]

/-- Module config whose `beamos_date` map iterates the 2020 entry first. -/
def beamosModule : JVal :=
  jobj [("beamos_date",
    jobj [("2020-01-01", beamosEntryOld), ("2021-06-01", beamosEntryNew)])]

/-- The same module config with the opposite map-iteration order. -/
def beamosModuleRev : JVal :=
  jobj [("beamos_date",
    jobj [("2021-06-01", beamosEntryNew), ("2020-01-01", beamosEntryOld)])]

/-- Plugin environment fixture: no pip versions, no registry versions, no
global pip binary. -/
def fixtureUpdateEnv : PluginEnv :=
  ⟨fun _ => none, fun _ _ => none, none, "/home/pi/oprint"⟩

/-- A small cloud config with shared defaults and one module. -/
def fixtureCloudConfig : JVal :=
  jobj
    [("default", jobj [("type", JVal.s "github_commit")]),
     ("modules", jobj
       [("mrbeam", jobj
         [("name", JVal.s " MrBeam Plugin"), ("user", JVal.s "mrbeam")])])]

/-- The per-module records `_set_info_from_cloud_config` computes for
`fixtureCloudConfig` before attempting the file write (tier `PROD`, image
date 2021-12-01): the defaults merged under the module, `displayVersion`
defaulted to `"-"`, `displayName` copied from `name`, and the working key
`name` stripped. -/
def fixtureComputedRecords : List (String × JVal) :=
  [("mrbeam", jobj
    [("type", JVal.s "github_commit"),
     ("user", JVal.s "mrbeam"),
     ("displayVersion", JVal.s "-"),
     ("displayName", JVal.s " MrBeam Plugin")])]

/-! ## Concrete fixtures for the runner scenarios -/

/-- The clone `set_lasercutterPorfile_2C` builds from the current default
profile when no `MrBeam2C` profile exists. -/
def profile2C (s : LCPStore) : Profile :=
  { s.default with
    id := "MrBeam2C"
    name := "MrBeam2"
    model := "C"
    legacy_job_done_home_position_x := some 250 }

/-- A non-generic profile already installed as default, so that
`Migration.run`'s unconditional profile-assignment step is skipped in the
gating scenarios. -/
def fixtureProfile : Profile := ⟨"MrBeam2C", "MrBeam2", "C", none, none, none⟩

/-- Profile store for the gating scenarios. -/
def fixtureStore : LCPStore := ⟨[fixtureProfile], fixtureProfile⟩

/-- A successful shell-out. -/
def procOk : ProcOutcome := .exited "" 0

/-- Runner environment: previously installed `0.1.12`, current `0.1.20`. -/
def envFrom_0_1_12 : MigEnv :=
  ⟨some "0.1.12", "0.1.20", "2C", fixtureStore, true, [],
    (procOk, procOk, procOk)⟩

/-- Runner environment: previously installed `0.1.18`, current `0.1.20`. -/
def envFrom_0_1_18 : MigEnv :=
  ⟨some "0.1.18", "0.1.20", "2C", fixtureStore, true, [],
    (procOk, procOk, procOk)⟩

/-- The generic placeholder profile. -/
def genericProfile : Profile := ⟨"my_default", "MrBeam", "", none, none, none⟩

/-- A pre-existing `MrBeam2C` profile with its own field values. -/
def existing2C : Profile := ⟨"MrBeam2C", "MrBeam2", "C", some 7, some 8, some 9⟩

/-- Store whose only profile is the generic default (no `MrBeam2C`). -/
def storeWithout2C : LCPStore := ⟨[genericProfile], genericProfile⟩

/-- Store that already holds a `MrBeam2C` profile. -/
def storeWith2C : LCPStore := ⟨[existing2C], genericProfile⟩

/-! ## Ordering lemmas for the strict-version order -/

theorem svLt_trans (a b c : StrictVersion) (hab : svLt a b = true)
    (hbc : svLt b c = true) : svLt a c = true := by
  obtain ⟨a1, a2, a3, ap⟩ := a
  obtain ⟨b1, b2, b3, bp⟩ := b
  obtain ⟨c1, c2, c3, cp⟩ := c
  rcases ap with _ | ⟨pa1, pa2⟩ <;> rcases bp with _ | ⟨pb1, pb2⟩ <;>
    rcases cp with _ | ⟨pc1, pc2⟩ <;>
    simp only [svLt, preLt, Bool.or_eq_true, Bool.and_eq_true,
      decide_eq_true_eq, Bool.false_eq_true, and_false, or_false, and_true,
      false_and, or_true] at hab hbc ⊢ <;> omega

theorem svLt_asymm (a b : StrictVersion) (hab : svLt a b = true) :
    svLt b a = false := by
  obtain ⟨a1, a2, a3, ap⟩ := a
  obtain ⟨b1, b2, b3, bp⟩ := b
  rcases ap with _ | ⟨pa1, pa2⟩ <;> rcases bp with _ | ⟨pb1, pb2⟩ <;>
    simp only [svLt, preLt, Bool.eq_false_iff, ne_eq, Bool.or_eq_true,
      Bool.and_eq_true, decide_eq_true_eq, Bool.false_eq_true, and_false,
      or_false, and_true, false_and, or_true] at hab ⊢ <;> omega

/-! ## Claim theorems about migrate.py's version helpers -/

/-- C2: `is_migration_required` returns true whenever the previously-installed
version is absent; when the previous version is present but fails
strict-version parsing it returns the indeterminate value (Python `None`);
and when the previous version parses (and the current plugin version does),
it returns true if and only if the current version is strictly greater than
the previous version. -/
theorem is_migration_required_spec (prev : Option String) (curr : String) :
    (prev = none → isMigrationRequired prev curr = .ok (some true)) ∧
    (∀ p, prev = some p → parseStrictVersion p = none →
      isMigrationRequired prev curr = .ok none) ∧
    (∀ p pv cv, prev = some p → parseStrictVersion p = some pv →
      parseStrictVersion curr = some cv →
      isMigrationRequired prev curr = .ok (some (svLt pv cv))) := by
  refine ⟨?_, ?_, ?_⟩
  · rintro rfl; rfl
  · rintro p rfl hp; simp [isMigrationRequired, hp]
  · rintro p pv cv rfl hp hc; simp [isMigrationRequired, hp, hc]

/-- Witness for C2: previous version absent is required, an unparseable
previous version is indeterminate, and `0.1.18 < 0.1.20` is required. -/
theorem is_migration_required_spec_witness :
    isMigrationRequired none "0.1.20" = .ok (some true) ∧
    isMigrationRequired (some "junk") "0.1.20" = .ok none ∧
    isMigrationRequired (some "0.1.18") "0.1.20" = .ok (some true) := by
  refine ⟨(is_migration_required_spec none "0.1.20").1 rfl,
    (is_migration_required_spec (some "junk") "0.1.20").2.1 "junk" rfl (by rfl),
    ?_⟩
  exact ((is_migration_required_spec (some "0.1.18") "0.1.20").2.2 "0.1.18"
    ⟨0, 1, 18, none⟩ ⟨0, 1, 20, none⟩ rfl (by rfl) (by rfl)).trans (by rfl)

/-- C3: `_compare_versions` is total (the embedding returns a value for every
pair of optional argument strings, mirroring the code's catch of
`ValueError`): a `None` argument or an unparseable argument yields the
indeterminate value; two valid versions yield `equal_ok` on equality and
strict order otherwise; and the strict version order is transitive and
antisymmetric. -/
theorem compare_versions_spec :
    (∀ (h : Option String) (e : Bool), compareVersions none h e = none) ∧
    (∀ (l : Option String) (e : Bool), compareVersions l none e = none) ∧
    (∀ (l h : String) (e : Bool), parseStrictVersion l = none →
      compareVersions (some l) (some h) e = none) ∧
    (∀ (l h : String) (e : Bool), parseStrictVersion h = none →
      compareVersions (some l) (some h) e = none) ∧
    (∀ (l h : String) (e : Bool) (lv hv : StrictVersion),
      parseStrictVersion l = some lv → parseStrictVersion h = some hv →
      compareVersions (some l) (some h) e =
        some (if lv = hv then e else svLt lv hv)) ∧
    (∀ a b c : StrictVersion,
      svLt a b = true → svLt b c = true → svLt a c = true) ∧
    (∀ a b : StrictVersion, svLt a b = true → svLt b a = false) := by
  refine ⟨?_, ?_, ?_, ?_, ?_, svLt_trans, svLt_asymm⟩
  · intro h e; cases h <;> rfl
  · intro l e; cases l <;> rfl
  · intro l h e hl; simp [compareVersions, hl]
  · intro l h e hh
    cases hl : parseStrictVersion l <;> simp [compareVersions, hl, hh]
  · intro l h e lv hv hl hh
    simp only [compareVersions, hl, hh]
    split <;> simp_all

/-- Witness for C3: indeterminate results at `None` and unparseable inputs,
the `equal_ok` result at equal versions, and the ordering facts at concrete
versions. -/
theorem compare_versions_spec_witness :
    compareVersions none (some "0.1.17") true = none ∧
    compareVersions (some "0.1.17") none true = none ∧
    compareVersions (some "x") (some "0.1.17") false = none ∧
    compareVersions (some "0.1.17") (some "y") false = none ∧
    compareVersions (some "0.1.12") (some "0.1.12") true = some true ∧
    svLt ⟨0, 1, 12, none⟩ ⟨0, 1, 19, none⟩ = true ∧
    svLt ⟨0, 1, 17, none⟩ ⟨0, 1, 12, none⟩ = false := by
  refine ⟨compare_versions_spec.1 (some "0.1.17") true,
    compare_versions_spec.2.1 (some "0.1.17") true,
    compare_versions_spec.2.2.1 "x" "0.1.17" false (by rfl),
    compare_versions_spec.2.2.2.1 "0.1.17" "y" false (by rfl),
    (compare_versions_spec.2.2.2.2.1 "0.1.12" "0.1.12" true
      ⟨0, 1, 12, none⟩ ⟨0, 1, 12, none⟩ (by rfl) (by rfl)).trans (by rfl),
    compare_versions_spec.2.2.2.2.2.1 ⟨0, 1, 12, none⟩ ⟨0, 1, 17, none⟩
      ⟨0, 1, 19, none⟩ (by rfl) (by rfl),
    compare_versions_spec.2.2.2.2.2.2 ⟨0, 1, 12, none⟩ ⟨0, 1, 17, none⟩
      (by rfl)⟩

/-- C4: with the base directory present, `delete_egg_dir_leftovers` deletes
the entry `Mr_Beam-0.1.10.dist` (captured version `0.1.10` strictly below the
`0.1.17` threshold) and leaves `Mr_Beam-0.1.20.dist` intact. -/
theorem delete_egg_dir_leftovers_spec :
    deleteEggDirLeftovers true ["Mr_Beam-0.1.10.dist", "Mr_Beam-0.1.20.dist"]
      = ["Mr_Beam-0.1.10.dist"] ∧
    eggMatch "Mr_Beam-0.1.10.dist" = some "0.1.10" ∧
    eggMatch "Mr_Beam-0.1.20.dist" = some "0.1.20" ∧
    VERSION_DELETE_EGG_DIR_LEFTOVERS = "0.1.17" ∧
    compareVersions (some "0.1.10") (some VERSION_DELETE_EGG_DIR_LEFTOVERS)
      false = some true ∧
    compareVersions (some "0.1.20") (some VERSION_DELETE_EGG_DIR_LEFTOVERS)
      false = some false :=
  ⟨by rfl, by rfl, by rfl, by rfl, by rfl, by rfl⟩

/-- C10: the greedy, backtracking egg-leftover pattern matches the bare entry
`Mr_Beam-0.1.18` by splitting the embedded version at its last dot, capturing
the truncated version `0.1`; that truncated version is strictly below the
`0.1.17` threshold, so the entry is deleted although its full embedded
version `0.1.18` is not below the threshold. -/
theorem egg_greedy_backtracking_spec :
    eggMatch "Mr_Beam-0.1.18" = some "0.1" ∧
    compareVersions (some "0.1.18") (some VERSION_DELETE_EGG_DIR_LEFTOVERS)
      false = some false ∧
    compareVersions (some "0.1") (some VERSION_DELETE_EGG_DIR_LEFTOVERS)
      false = some true ∧
    deleteEggDirLeftovers true ["Mr_Beam-0.1.18"] = ["Mr_Beam-0.1.18"] :=
  ⟨by rfl, by rfl, by rfl, by rfl⟩

/-- C1: with previous version `0.1.12` and current version `0.1.20`,
`Migration.run` executes all three version-gated steps in order
(`migrate_from_0_0_0`, which sets the default profile's intensity and dust
fields to 13 and 60, then `delete_egg_dir_leftovers`, then `setup_iptables`)
and then persists `0.1.20` as the stored version; with previous version
`0.1.18` only `setup_iptables` executes before the version is persisted. -/
theorem migration_run_gating_spec :
    (Migration_run envFrom_0_1_12).events =
      [.migrate_from_0_0_0, .delete_egg_dir_leftovers, .setup_iptables,
       .saved_version "0.1.20"] ∧
    (Migration_run envFrom_0_1_12).settingsVersion = some "0.1.20" ∧
    (Migration_run envFrom_0_1_12).store.default.laser_intensity_factor
      = some 13 ∧
    (Migration_run envFrom_0_1_12).store.default.dust_auto_mode_time
      = some 60 ∧
    (Migration_run envFrom_0_1_18).events =
      [.setup_iptables, .saved_version "0.1.20"] ∧
    (Migration_run envFrom_0_1_18).settingsVersion = some "0.1.20" :=
  ⟨by rfl, by rfl, by rfl, by rfl, by rfl, by rfl⟩

/-- C5: for device series `2C`, when no `MrBeam2C` profile exists the
current default profile is cloned and saved (appended, since no profile has
that id) as the new default with `id = MrBeam2C`, `name = MrBeam2`,
`model = C` and `legacy.job_done_home_position_x = 250`; when a `MrBeam2C`
profile already exists it is merely set as default and the stored profiles
are not mutated. -/
theorem set_lasercutterPorfile_2C_spec (s : LCPStore) :
    (s.existsId "MrBeam2C" = false →
      (set_lasercutterPorfile_2C s).default = profile2C s ∧
      (set_lasercutterPorfile_2C s).profiles = s.profiles ++ [profile2C s]) ∧
    (s.existsId "MrBeam2C" = true →
      (set_lasercutterPorfile_2C s).profiles = s.profiles ∧
      ∀ p, s.get? "MrBeam2C" = some p →
        (set_lasercutterPorfile_2C s).default = p) := by
  constructor
  · intro hne
    have hid : (profile2C s).id = "MrBeam2C" := rfl
    simp [set_lasercutterPorfile_2C, LCPStore.save, profile2C, hne] at *
  · intro hex
    constructor
    · simp [set_lasercutterPorfile_2C, LCPStore.setDefault, hex]
      cases hp : s.get? "MrBeam2C" <;> simp
    · intro p hp
      simp [set_lasercutterPorfile_2C, LCPStore.setDefault, hex, hp]

/-- Witness for C5: on a store without a `MrBeam2C` profile the clone of the
generic default becomes the new default; on a store with one, the profile
list is untouched and the existing profile becomes default. -/
theorem set_lasercutterPorfile_2C_spec_witness :
    (set_lasercutterPorfile_2C storeWithout2C).default
      = profile2C storeWithout2C ∧
    (set_lasercutterPorfile_2C storeWithout2C).profiles
      = storeWithout2C.profiles ++ [profile2C storeWithout2C] ∧
    (set_lasercutterPorfile_2C storeWith2C).profiles
      = storeWith2C.profiles ∧
    (set_lasercutterPorfile_2C storeWith2C).default = existing2C :=
  ⟨((set_lasercutterPorfile_2C_spec storeWithout2C).1 (by rfl)).1,
    ((set_lasercutterPorfile_2C_spec storeWithout2C).1 (by rfl)).2,
    ((set_lasercutterPorfile_2C_spec storeWith2C).2 (by rfl)).1,
    ((set_lasercutterPorfile_2C_spec storeWith2C).2 (by rfl)).2 existing2C
      (by rfl)⟩

/-- C6 counterexample: `_exec_cmd_output` does not return a pair for every
command — the source catches only `CalledProcessError`, so for a command
whose process cannot be spawned the `OSError` raised by
`subprocess.check_output` propagates out of the helper to its caller and no
`(output, code)` pair is produced. -/
theorem exec_cmd_output_osError_uncaught :
    _exec_cmd_output ProcOutcome.osError = .error SubprocessError.osError ∧
    ¬ ∃ p : String × Int, _exec_cmd_output ProcOutcome.osError = .ok p := by
  refine ⟨rfl, ?_⟩
  rintro ⟨p, hp⟩
  exact Except.noConfusion hp

/-- C6 (amended): for every command whose process was spawned and exited,
`_exec_cmd_output` returns the pair of the process's combined stdout/stderr
text and its exit code — a non-zero exit (the `CalledProcessError` branch)
is represented in-band by that exit code and output, and that exception
never escapes to the caller; only the spawn-failure `OSError`, which the
code does not catch, propagates. -/
theorem exec_cmd_output_spec (output : String) (code : Int) :
    _exec_cmd_output (ProcOutcome.exited output code) = .ok (output, code) := by
  by_cases h : code = 0 <;> simp [_exec_cmd_output, check_output, h]

/-- C7: `get_tag_of_github_repo` yields no value — and no raised fault — on
retry exhaustion, on an HTTP error status such as 500, and on a connection
failure; on a tag list with mixed major versions it returns the maximum
version whose major component is below `MAJOR_VERSION_CLOUD_CONFIG + 1`,
i.e. the maximum of the `0.x.x` family. -/
theorem get_tag_of_github_repo_spec :
    get_tag_of_github_repo .maxRetryError = .ok none ∧
    get_tag_of_github_repo .connectionError = .ok none ∧
    get_tag_of_github_repo (.response 500 ["v0.2.5", "v1.3.0"]) = .ok none ∧
    get_tag_of_github_repo
        (.response 200 ["v0.2.5", "v1.3.0", "v0.10.1", "v2.0.0"])
      = .ok (some (0, 10, 1)) :=
  ⟨by rfl, by rfl, by rfl, by rfl⟩

/-- C8: `_generate_config_of_beamos` on a module with dated entries
2020-01-01 and 2021-06-01 and image date 2021-12-01 merges (accumulates)
both qualifying entries into the result in map-iteration order — with the
opposite iteration order the overlapping key takes the other entry's value —
rather than applying only the chronologically latest qualifying entry. -/
theorem generate_config_of_beamos_spec :
    _generate_config_of_beamos beamosModule (2021, 12, 1) "stable"
      = .ok (dict_merge (dict_merge (jobj []) beamosEntryOld)
          beamosEntryNew) ∧
    _generate_config_of_beamos beamosModule (2021, 12, 1) "stable"
      = .ok (jobj [("x", JVal.n 2), ("a", JVal.n 1), ("b", JVal.n 2)]) ∧
    _generate_config_of_beamos beamosModuleRev (2021, 12, 1) "stable"
      = .ok (jobj [("x", JVal.n 1), ("b", JVal.n 2), ("a", JVal.n 1)]) :=
  ⟨by rfl, by rfl, by rfl⟩

/-- C9: when the cloud config is non-empty and writing `update_info.json`
fails with a file I/O or serialization error, `_set_info_from_cloud_config`
shows the `write_error_update_info_file_err` notification and returns no
value (which `get_update_information` passes straight to its caller), even
though the same per-module records it would have returned on a successful
write were already fully computed. -/
theorem set_info_write_failure_spec (env : PluginEnv) (fuel : Nat)
    (tier : String) (beamos_date : BDate) (cloud_config : JVal)
    (m : List (String × JVal)) (ht : jTruthy cloud_config = true)
    (hm : computeSwUpdateConfig env fuel tier beamos_date cloud_config
      = .ok m) :
    _set_info_from_cloud_config env fuel tier beamos_date cloud_config false
      = .ok (none, ["write_error_update_info_file_err"]) ∧
    _set_info_from_cloud_config env fuel tier beamos_date cloud_config true
      = .ok (some m, []) := by
  constructor <;> simp [_set_info_from_cloud_config, ht, hm]

/-- Witness for C9: on the concrete cloud config the write failure discards
the one fully-computed module record that the successful write returns. -/
theorem set_info_write_failure_spec_witness :
    _set_info_from_cloud_config fixtureUpdateEnv 4 "PROD" (2021, 12, 1)
        fixtureCloudConfig false
      = .ok (none, ["write_error_update_info_file_err"]) ∧
    _set_info_from_cloud_config fixtureUpdateEnv 4 "PROD" (2021, 12, 1)
        fixtureCloudConfig true
      = .ok (some fixtureComputedRecords, []) :=
  set_info_write_failure_spec fixtureUpdateEnv 4 "PROD" (2021, 12, 1)
    fixtureCloudConfig fixtureComputedRecords (by rfl) (by rfl)

end MrBeam
